import Mathlib

/-!
Shallow embedding of the type-inference / unification engine of the
typed-lambda-calculus repository (src/typed_lambda_calculus/typ.py,
type_checker.py, ast.py).

The Python engine works on mutable objects: `MonoTyp` and `LambdaTyp`
instances carry a mutable `upper_typ` binding slot and are compared by
object identity in `upgrade` (`self is upper_typ`).  We model object
identity with an explicit heap: an `InferredTyp` value is either an
immutable `KnownTyp` (frozen dataclass, no binding slot, compared by
name) or a reference to a heap cell holding a `MonoTyp` or `LambdaTyp`
object.  Heap-recursive operations take a fuel argument; running out of
fuel is reported as `Err.outOfFuel`, which models Python's
`RecursionError` for genuinely non-terminating binding chains.
Python exceptions are modelled as `Err` values; mutations performed
before an exception was raised persist, so every stateful operation
returns the (possibly mutated) heap together with the `Except` result.
-/

namespace TLC

/-- A runtime type value: a frozen `KnownTyp(name)` (atomic ground type,
compared by name) or a reference to a heap cell holding a mutable
`MonoTyp`/`LambdaTyp` object. -/
inductive InferredTyp where
  | known (name : String)
  | ref (addr : Nat)
deriving DecidableEq, Repr

/-- A heap cell: a `MonoTyp(name, upper_typ)` type variable or a
`LambdaTyp(variable_typ, body_typ, upper_typ)` function type, each with
its optional mutable binding slot `upper_typ` (typ.py lines 37-79). -/
inductive HeapNode where
  | mono (name : String) (upper_typ : Option InferredTyp)
  | lam (variable_typ body_typ : InferredTyp) (upper_typ : Option InferredTyp)
deriving DecidableEq, Repr

/-- The mutable global state: all live `MonoTyp`/`LambdaTyp` objects
(addressed by position) plus the module-global `MONO_TYP_COUNTER` of
typ.py line 29. -/
structure Heap where
  nodes : List HeapNode
  mono_typ_counter : Nat
deriving DecidableEq, Repr

def Heap.node (s : Heap) (a : Nat) : Option HeapNode :=
  s.nodes[a]?

def Heap.setNode (s : Heap) (a : Nat) (n : HeapNode) : Heap :=
  { s with nodes := s.nodes.set a n }

/-- Object creation: a new cell at the next free address. -/
def Heap.alloc (s : Heap) (n : HeapNode) : InferredTyp × Heap :=
  (.ref s.nodes.length, { s with nodes := s.nodes ++ [n] })

/-- The state of a freshly started run: no objects, counter 0. -/
def initial_heap : Heap := ⟨[], 0⟩

/-- Python exceptions raised by the engine, plus `outOfFuel` (models
`RecursionError` / non-termination) and `badRef` (dangling address,
impossible for states built by the engine itself). -/
inductive Err where
  | recursiveType
  | upgradeMismatch
  | knownMismatch (a b : String)
  | cannotUnify
  | notALambda
  | notImplemented
  | assertionFailed
  | badRef
  | outOfFuel
deriving DecidableEq, Repr

/-- `MonoTyp.create` (typ.py lines 43-47): increment the global counter
and allocate a fresh unbound variable named `t<counter>`. -/
def MonoTyp.create (s : Heap) : InferredTyp × Heap :=
  let c := s.mono_typ_counter + 1
  Heap.alloc { s with mono_typ_counter := c } (.mono ("t" ++ Nat.repr c) none)

/-- `reset_mono_typ_counter` (typ.py lines 32-34). -/
def reset_mono_typ_counter (s : Heap) : Heap :=
  { s with mono_typ_counter := 0 }

/-- `tru_typ` (typ.py lines 19-20, 49-50, 69-70): follow the `upper_typ`
binding chain to the current representative.  Pure. -/
def tru_typ (fuel : Nat) (s : Heap) (t : InferredTyp) : Except Err InferredTyp :=
  match fuel with
  | 0 => .error .outOfFuel
  | fuel + 1 =>
    match t with
    | .known _ => .ok t
    | .ref a =>
      match s.node a with
      | none => .error .badRef
      | some (.mono _ none) => .ok t
      | some (.mono _ (some u)) => tru_typ fuel s u
      | some (.lam _ _ none) => .ok t
      | some (.lam _ _ (some u)) => tru_typ fuel s u

/-- `upgrade` (typ.py lines 22-26, 52-59, 72-79): `KnownTyp.upgrade`
asserts the new binding is a `KnownTyp` of the same name and returns
itself; `MonoTyp.upgrade` / `LambdaTyp.upgrade` delegate along an
existing binding, are a no-op when the target is the object itself
(`self is upper_typ`), and otherwise set the binding slot and return
the new binding. -/
def upgrade (fuel : Nat) (s : Heap) (t upper : InferredTyp) :
    Except Err InferredTyp × Heap :=
  match fuel with
  | 0 => (.error .outOfFuel, s)
  | fuel + 1 =>
    match t with
    | .known n =>
      match upper with
      | .known n2 => if n2 = n then (.ok (.known n), s) else (.error .upgradeMismatch, s)
      | .ref _ => (.error .upgradeMismatch, s)
    | .ref a =>
      match s.node a with
      | none => (.error .badRef, s)
      | some (.mono name none) =>
        if upper = .ref a then (.ok (.ref a), s)
        else (.ok upper, s.setNode a (.mono name (some upper)))
      | some (.mono _ (some u)) => upgrade fuel s u upper
      | some (.lam v b none) =>
        if upper = .ref a then (.ok (.ref a), s)
        else (.ok upper, s.setNode a (.lam v b (some upper)))
      | some (.lam _ _ (some u)) => upgrade fuel s u upper

/-- The Python-pattern-match view of a type value: class and fields of
the object it denotes (ignoring the binding slot, exactly as the class
patterns `KnownTyp(n)` / `MonoTyp(n)` / `LambdaTyp(v, b)` do). -/
inductive NodeView where
  | vknown (name : String)
  | vmono (name : String)
  | vlam (variable_typ body_typ : InferredTyp)
deriving DecidableEq, Repr

def view (s : Heap) (t : InferredTyp) : Option NodeView :=
  match t with
  | .known n => some (.vknown n)
  | .ref a =>
    match s.node a with
    | some (.mono n _) => some (.vmono n)
    | some (.lam v b _) => some (.vlam v b)
    | none => none

/-- `equal` (type_checker.py lines 154-169): structural equality that
compares `KnownTyp`/`MonoTyp` by name and recurses into `LambdaTyp`
components, without following binding slots. -/
def equal (fuel : Nat) (s : Heap) (typ1 typ2 : InferredTyp) : Except Err Bool :=
  match fuel with
  | 0 => .error .outOfFuel
  | fuel + 1 =>
    match view s typ1, view s typ2 with
    | none, _ => .error .badRef
    | _, none => .error .badRef
    | some (.vknown n1), some (.vknown n2) => .ok (n1 == n2)
    | some (.vmono n1), some (.vmono n2) => .ok (n1 == n2)
    | some (.vlam v1 b1), some (.vlam v2 b2) =>
      match equal fuel s v1 v2 with
      | .error e => .error e
      | .ok false => .ok false
      | .ok true => equal fuel s b1 b2
    | _, _ => .ok false

/-- `is_in_typ` (type_checker.py lines 196-208): does a variable with
the given name occur in the (unresolved) structure of `t`?  Matches
`MonoTyp` cells by name only, recurses into `LambdaTyp` body first and
then argument, `KnownTyp` never contains a variable. -/
def is_in_typ (fuel : Nat) (s : Heap) (name : String) (t : InferredTyp) :
    Except Err Bool :=
  match fuel with
  | 0 => .error .outOfFuel
  | fuel + 1 =>
    match view s t with
    | none => .error .badRef
    | some (.vmono n) => .ok (name == n)
    | some (.vknown _) => .ok false
    | some (.vlam v b) =>
      match is_in_typ fuel s name b with
      | .error e => .error e
      | .ok true => .ok true
      | .ok false => is_in_typ fuel s name v

/-- `union` (type_checker.py lines 124-151): resolve both sides; if
structurally `equal`, return the first argument unchanged; if either
resolved side is a `MonoTyp` (second side checked first), perform the
occurs-check assertion and return the resolved other side WITHOUT
binding anything; known types must agree by name; two `LambdaTyp`s are
unified componentwise into a freshly allocated `LambdaTyp`; everything
else raises. -/
def union (fuel : Nat) (s : Heap) (typ1 typ2 : InferredTyp) :
    Except Err InferredTyp × Heap :=
  match fuel with
  | 0 => (.error .outOfFuel, s)
  | fuel + 1 =>
    match tru_typ fuel s typ1 with
    | .error e => (.error e, s)
    | .ok true_typ1 =>
      match tru_typ fuel s typ2 with
      | .error e => (.error e, s)
      | .ok true_typ2 =>
        match equal fuel s true_typ1 true_typ2 with
        | .error e => (.error e, s)
        | .ok true => (.ok typ1, s)
        | .ok false =>
          match view s true_typ1, view s true_typ2 with
          | none, _ => (.error .badRef, s)
          | _, none => (.error .badRef, s)
          | some _, some (.vmono m) =>
            match is_in_typ fuel s m true_typ1 with
            | .error e => (.error e, s)
            | .ok true => (.error .recursiveType, s)
            | .ok false => (.ok true_typ1, s)
          | some (.vmono m), some _ =>
            match is_in_typ fuel s m true_typ2 with
            | .error e => (.error e, s)
            | .ok true => (.error .recursiveType, s)
            | .ok false => (.ok true_typ2, s)
          | some (.vknown n1), some (.vknown n2) =>
            if n1 == n2 then (.ok typ1, s) else (.error (.knownMismatch n1 n2), s)
          | some (.vlam v1 b1), some (.vlam v2 b2) =>
            match union fuel s v1 v2 with
            | (.error e, s1) => (.error e, s1)
            | (.ok u1, s1) =>
              match union fuel s1 b1 b2 with
              | (.error e, s2) => (.error e, s2)
              | (.ok u2, s2) =>
                let (r, s3) := s2.alloc (.lam u1 u2 none)
                (.ok r, s3)
          | _, _ => (.error .cannotUnify, s)

/-- `subsitute` (sic, type_checker.py lines 172-193): resolve all three
arguments, replace occurrences `equal` to the resolved `from` type by
the resolved `to` type, rebuilding `LambdaTyp` nodes as fresh objects. -/
def subsitute (fuel : Nat) (s : Heap) (from_typ to_typ in_typ : InferredTyp) :
    Except Err InferredTyp × Heap :=
  match fuel with
  | 0 => (.error .outOfFuel, s)
  | fuel + 1 =>
    match tru_typ fuel s from_typ with
    | .error e => (.error e, s)
    | .ok tf =>
      match tru_typ fuel s to_typ with
      | .error e => (.error e, s)
      | .ok tt =>
        match tru_typ fuel s in_typ with
        | .error e => (.error e, s)
        | .ok ti =>
          match equal fuel s tf ti with
          | .error e => (.error e, s)
          | .ok true => (.ok tt, s)
          | .ok false =>
            match view s ti with
            | none => (.error .badRef, s)
            | some (.vlam v b) =>
              match subsitute fuel s tf tt v with
              | (.error e, s1) => (.error e, s1)
              | (.ok v2, s1) =>
                match subsitute fuel s1 tf tt b with
                | (.error e, s2) => (.error e, s2)
                | (.ok b2, s2) =>
                  let (r, s3) := s2.alloc (.lam v2 b2 none)
                  (.ok r, s3)
            | some (.vknown _) => (.ok ti, s)
            | some (.vmono _) => (.ok ti, s)

/-- `infer_application_type` (type_checker.py lines 85-121): apply a
function type to an argument type.  A resolved `LambdaTyp` unifies its
parameter with the argument, upgrades parameter and argument, and
substitutes into the body; a resolved `MonoTyp` is bound to a freshly
synthesized `LambdaTyp(argument, fresh)` and the call retried; a
`KnownTyp` is not a function. -/
def infer_application_type (fuel : Nat) (s : Heap)
    (function_typ argument_typ : InferredTyp) : Except Err InferredTyp × Heap :=
  match fuel with
  | 0 => (.error .outOfFuel, s)
  | fuel + 1 =>
    match tru_typ fuel s function_typ with
    | .error e => (.error e, s)
    | .ok function_true_typ =>
      match tru_typ fuel s argument_typ with
      | .error e => (.error e, s)
      | .ok argument_true_typ =>
        match view s function_true_typ with
        | none => (.error .badRef, s)
        | some (.vlam variable_typ body_typ) =>
          match union fuel s variable_typ argument_true_typ with
          | (.error e, s1) => (.error e, s1)
          | (.ok union_typ, s1) =>
            match upgrade fuel s1 variable_typ union_typ with
            | (.error e, s2) => (.error e, s2)
            | (.ok _, s2) =>
              match upgrade fuel s2 argument_typ union_typ with
              | (.error e, s3) => (.error e, s3)
              | (.ok _, s3) => subsitute fuel s3 variable_typ union_typ body_typ
        | some (.vmono _) =>
          let (fresh, s1) := MonoTyp.create s
          let (new_typ, s2) := s1.alloc (.lam argument_true_typ fresh none)
          match union fuel s2 function_true_typ new_typ with
          | (.error e, s3) => (.error e, s3)
          | (.ok union_typ, s3) =>
            match upgrade fuel s3 function_typ union_typ with
            | (.error e, s4) => (.error e, s4)
            | (.ok _, s4) => infer_application_type fuel s4 union_typ argument_true_typ
        | some (.vknown _) => (.error .notALambda, s)

/-- Modelled from the spec: the literal-kind tag of literal tokens.  The
lexer in src lacks the `LiteralCategory` enum that typ.py imports and
type_checker.py consumes; spec sections 6 and 8 fix its kinds to
`{Number, Bool}`. -/
inductive LiteralCategory where
  | NUMBER
  | BOOL
deriving DecidableEq, Repr

/-- Token categories.  `LITERAL` is modelled from the spec (the src
lexer of this snapshot only has `LIT_NUMBER`, while type_checker.py
line 37 matches on `TokenCategory.LITERAL`); the rest follow
lexer.py lines 68-80. -/
inductive TokenCategory where
  | LAMBDA
  | DOT
  | PAREN_RIGHT
  | PAREN_LEFT
  | COLON
  | VARIABLE
  | TYPE
  | LET
  | IN
  | LIT_NUMBER
  | EQUALS
  | ARROW
  | LITERAL
deriving DecidableEq, Repr

/-- A token (lexer.py lines 83-93); `content` stands for
`position.content`, the source text of the token.  `literal_category`
is modelled from the spec (see `LiteralCategory`). -/
structure Token where
  content : String
  category : TokenCategory
  literal_category : Option LiteralCategory
deriving DecidableEq, Repr

/-- `KnownTyp.from_literal_category` (typ.py lines 9-17). -/
def KnownTyp.from_literal_category : LiteralCategory → String
  | .NUMBER => "Number"
  | .BOOL => "Bool"

/-- Parsed type syntax (ast.py lines 6-18); carried by annotations but
never consulted by the inference engine. -/
inductive TypAst where
  | tvar (type_token : Token)
  | tfn (argument : TypAst) (arrow_token : Token) (result : TypAst)
deriving DecidableEq, Repr

/-- Ast.py lines 21-24. -/
structure TypeAnnotation where
  colon_token : Token
  typ : TypAst
deriving DecidableEq, Repr

/-- The expression tree (ast.py lines 27-73).  Each node's
`inferred_typ` field holds (a reference to) the `MonoTyp` object
pre-assigned to the node; we store its heap address. -/
inductive Expression where
  | LetIn (let_token identifier_token : Token)
      ( type_annotation : Option TypeAnnotation) (equal_token : Token)
      (expression : Expression) (in_token : Token) (body : Expression)
      (inferred_typ : Nat)
  | Lambda (lambda_token identifier_token : Token)
      ( type_annotation : Option TypeAnnotation) (dot_token : Token)
      (body : Expression) (inferred_typ : Nat)
  | Application (function argument : Expression) (inferred_typ : Nat)
  | Identifier (identifier_token : Token) (inferred_typ : Nat)
  | Literal (literal_token : Token) (inferred_typ : Nat)
deriving DecidableEq, Repr

/-- The lexically scoped type environment (type_checker.py lines 7-26):
`empty` is `EmptyTypEnvironment`, `frame` is `LambdaTypEnvironment`. -/
inductive TypEnvironment where
  | empty
  | frame (variable_name : String) (variable_typ : InferredTyp)
      (inner : TypEnvironment)
deriving DecidableEq, Repr

/-- `__getitem__` lookup (type_checker.py lines 9-10, 20-23). -/
def TypEnvironment.getItem : TypEnvironment → String → Option InferredTyp
  | .empty, _ => none
  | .frame n t inner, x => if x == n then some t else inner.getItem x

/-- `infer_type` (type_checker.py lines 29-82).  Literal tokens must
carry category `LITERAL` and a literal kind (otherwise the match falls
through to `NotImplementedError` / the assertion fires); identifiers
missing from the environment are returned unbound as-is; applications
infer function then argument then apply; lambdas allocate a fresh
parameter variable, extend the environment, and build a `LambdaTyp`;
`LetIn` is unsupported. -/
def infer_type (fuel : Nat) (s : Heap) (expression : Expression)
    (env : TypEnvironment) : Except Err InferredTyp × Heap :=
  match expression with
  | .Literal tok a =>
    if tok.category = .LITERAL then
      match tok.literal_category with
      | none => (.error .assertionFailed, s)
      | some lc =>
        let known_typ := InferredTyp.known (KnownTyp.from_literal_category lc)
        match union fuel s known_typ (.ref a) with
        | (.error e, s1) => (.error e, s1)
        | (.ok union_typ, s1) => upgrade fuel s1 (.ref a) union_typ
    else (.error .notImplemented, s)
  | .Identifier tok a =>
    match env.getItem tok.content with
    | some typ_from_env =>
      match union fuel s typ_from_env (.ref a) with
      | (.error e, s1) => (.error e, s1)
      | (.ok union_typ, s1) => upgrade fuel s1 (.ref a) union_typ
    | none => (.ok (.ref a), s)
  | .Application f arg a =>
    match infer_type fuel s f env with
    | (.error e, s1) => (.error e, s1)
    | (.ok function_typ, s1) =>
      match infer_type fuel s1 arg env with
      | (.error e, s2) => (.error e, s2)
      | (.ok argument_typ, s2) =>
        match infer_application_type fuel s2 function_typ argument_typ with
        | (.error e, s3) => (.error e, s3)
        | (.ok r, s3) => upgrade fuel s3 (.ref a) r
  | .Lambda _ itok _ _ body a =>
    let (v, s1) := MonoTyp.create s
    match infer_type fuel s1 body (.frame itok.content v env) with
    | (.error e, s2) => (.error e, s2)
    | (.ok body_typ, s2) =>
      let (true_typ, s3) := s2.alloc (.lam v body_typ none)
      match union fuel s3 true_typ (.ref a) with
      | (.error e, s4) => (.error e, s4)
      | (.ok union_typ, s4) => upgrade fuel s4 (.ref a) union_typ
  | .LetIn _ _ _ _ _ _ _ _ => (.error .notImplemented, s)

/-- A binding-free snapshot of a resolved type, used to compare
"resolved types" across states. -/
inductive PureTyp where
  | known (name : String)
  | mono (name : String)
  | fn (a b : PureTyp)
deriving DecidableEq, Repr

/-- Deep resolution: the structure of `typ_to_str` (print_ast.py lines
88-103) with rendering dropped — resolve with `tru_typ` at every level
and record the resulting shape. -/
def typ_deep (fuel : Nat) (s : Heap) (t : InferredTyp) : Except Err PureTyp :=
  match fuel with
  | 0 => .error .outOfFuel
  | fuel + 1 =>
    match tru_typ fuel s t with
    | .error e => .error e
    | .ok tt =>
      match view s tt with
      | none => .error .badRef
      | some (.vknown n) => .ok (.known n)
      | some (.vmono n) => .ok (.mono n)
      | some (.vlam v b) =>
        match typ_deep fuel s v with
        | .error e => .error e
        | .ok pv =>
          match typ_deep fuel s b with
          | .error e => .error e
          | .ok pb => .ok (.fn pv pb)

/-- Modelled from the spec: parse-time pre-assignment of one fresh
`MonoTyp` per expression node (spec section 6; the parser variant that
allocates `inferred_typ` fields is absent from this snapshot's
parser.py, whose AST lacks those fields, while ast.py has them).
Allocates `k` node variables with `MonoTyp.create`. -/
def alloc_node_typs : Nat → Heap → Heap
  | 0, s => s
  | k + 1, s => alloc_node_typs k (MonoTyp.create s).2

/-- The name of the `MonoTyp` object in a heap cell, if any. -/
def mono_name : HeapNode → Option String
  | .mono n _ => some n
  | .lam _ _ _ => none

def variable_token (c : String) : Token := ⟨c, .VARIABLE, none⟩

def number_token (c : String) : Token := ⟨c, .LITERAL, some .NUMBER⟩

def dot_token : Token := ⟨".", .DOT, none⟩

def lambda_token : Token := ⟨"\\", .LAMBDA, none⟩

/-- The identity lambda `\x. x`; node variables: identifier node at
address 0, lambda node at address 1. -/
def treeI : Expression :=
  .Lambda lambda_token (variable_token "x") none dot_token
    (.Identifier (variable_token "x") 0) 1

/-- Parse-time state for `treeI`: its two node variables. -/
def s0I : Heap := alloc_node_typs 2 initial_heap

/-- The state after one full inference pass over `treeI`. -/
def s1I : Heap := (infer_type 32 s0I treeI .empty).2

/-- The application `(\x. x) 3`; nodes: identifier 0, lambda 1,
literal 2, application 3. -/
def treeG : Expression :=
  .Application
    (.Lambda lambda_token (variable_token "x") none dot_token
      (.Identifier (variable_token "x") 0) 1)
    (.Literal (number_token "3") 2) 3

/-- Parse-time state for `treeG`. -/
def s0G : Heap := alloc_node_typs 4 initial_heap

/-- The state after one full inference pass over `treeG`. -/
def s1G : Heap := (infer_type 32 s0G treeG .empty).2

/-- A lone free identifier `y`, node variable at address 0. -/
def treeY : Expression := .Identifier (variable_token "y") 0

/-- Parse-time state for `treeY`. -/
def s0Y : Heap := alloc_node_typs 1 initial_heap

/-- The term `\f. \g. \x. \y. (((f x) (g y)) (g x)) (f y)`.  The
three leading applications bind f to `X -> R1`, g to `Y -> R2`, and the
variable X to the variable Y; the final `f y` then makes `union` hit
its `equal` fast path on a bound variable so that the subsequent
`upgrade` calls bind Y back to X, closing a cycle of binding links.
Node variable addresses 0-18, innermost-first per subterm. -/
def treeC : Expression :=
  .Lambda lambda_token (variable_token "f") none dot_token
    (.Lambda lambda_token (variable_token "g") none dot_token
      (.Lambda lambda_token (variable_token "x") none dot_token
        (.Lambda lambda_token (variable_token "y") none dot_token
          (.Application
            (.Application
              (.Application
                (.Application (.Identifier (variable_token "f") 0)
                  (.Identifier (variable_token "x") 1) 2)
                (.Application (.Identifier (variable_token "g") 3)
                  (.Identifier (variable_token "y") 4) 5)
                6)
              (.Application (.Identifier (variable_token "g") 7)
                (.Identifier (variable_token "x") 8) 9)
              10)
            (.Application (.Identifier (variable_token "f") 11)
              (.Identifier (variable_token "y") 12) 13)
            14)
          15)
        16)
      17)
    18

/-- Parse-time state for `treeC`: its nineteen node variables. -/
def s0C : Heap := alloc_node_typs 19 initial_heap

/-- The state in which inference on `treeC` aborts. -/
def sC : Heap := (infer_type 64 s0C treeC .empty).2

/-- Resolution never terminates on a two-cycle of binding links:
whatever the fuel, `tru_typ` keeps alternating between the two cells. -/
theorem tru_typ_cycle (s : Heap) :
    ∀ (fuel a b : Nat) (na nb : String),
      s.node a = some (.mono na (some (.ref b))) →
      s.node b = some (.mono nb (some (.ref a))) →
      tru_typ fuel s (.ref a) = .error .outOfFuel := by
  intro fuel
  induction fuel with
  | zero => intro a b na nb _ _; rfl
  | succ f ih =>
    intro a b na nb ha hb
    simp only [tru_typ, ha]
    exact ih b a nb na hb ha

/-- C4: `union` of a fresh unbound variable `X` with the function type
`LambdaTyp(X, Number)` fails the occurs-check assertion
(`RecursiveType`), returning no type and leaving the state — and in
particular X's binding slot — untouched. -/
theorem claim_C4 :
    union 8 ⟨[.mono "t1" none, .lam (.ref 0) (.known "Number") none], 1⟩
        (.ref 0) (.ref 1)
      = (.error .recursiveType,
         ⟨[.mono "t1" none, .lam (.ref 0) (.known "Number") none], 1⟩) := by
  rfl

/-- C8: `union(Number, Number)` returns `Number` and mutates nothing;
`union(Number, Bool)` raises the known-type-mismatch `ValueError`
(`TypeMismatch`), returning no type and binding nothing, in any state. -/
theorem claim_C8 (s : Heap) :
    union 8 s (.known "Number") (.known "Number") = (.ok (.known "Number"), s) ∧
    union 8 s (.known "Number") (.known "Bool")
      = (.error (.knownMismatch "Number" "Bool"), s) :=
  ⟨rfl, rfl⟩

/-- C6: inferring `(\x. x) 3` in the empty environment succeeds and the
whole expression — both the returned type and the application node's
own variable — resolves to the ground type `Number`. -/
theorem claim_C6 :
    (infer_type 32 s0G treeG .empty).1 = .ok (.known "Number") ∧
    typ_deep 32 s1G (.ref 3) = .ok (.known "Number") :=
  ⟨rfl, rfl⟩

/-- C7: inferring `\x. x` in the empty environment yields a
`LambdaTyp` whose argument and result slots hold the very same
`MonoTyp` object (heap address 2), an engine-allocated fresh variable
(the first address past the two parse-time node variables) that is
still unbound afterwards. -/
theorem claim_C7 :
    (infer_type 32 s0I treeI .empty).1 = .ok (.ref 3) ∧
    s1I.node 3 = some (.lam (.ref 2) (.ref 2) none) ∧
    s1I.node 2 = some (.mono "t3" none) ∧
    s0I.nodes.length = 2 :=
  ⟨rfl, rfl, rfl, rfl⟩

/-- C2: the engine does create a cycle of binding links.  Inferring
`\f. \g. \x. \y. (((f x) (g y)) (g x)) (f y)` aborts with
unbounded recursion (Python: `RecursionError`), and the state it leaves
behind has the parameter variables of x and y (cells 21 and 22) bound
to each other, so resolving either never terminates at any fuel. -/
theorem claim_C2 :
    (infer_type 64 s0C treeC .empty).1 = .error .outOfFuel ∧
    sC.node 21 = some (.mono "t22" (some (.ref 22))) ∧
    sC.node 22 = some (.mono "t23" (some (.ref 21))) ∧
    ∀ fuel, tru_typ fuel sC (.ref 21) = .error .outOfFuel := by
  refine ⟨rfl, rfl, rfl, fun fuel => ?_⟩
  exact tru_typ_cycle sC fuel 21 22 "t22" "t23" rfl rfl

/-- C1 (amended): when exactly one side of `union` resolves to an
unbound type variable, `union` runs the occurs-check against the other
side's structure and either fails with the recursive-type assertion or
returns the resolved other side — but it performs NO binding: the state
is returned untouched (the callers bind afterwards via `upgrade`).
Both argument orders are covered. -/
theorem claim_C1 (f : Nat) (s : Heap) (typ1 typ2 r : InferredTyp) (b : Nat)
    (m : String) (occ : Bool) :
    (tru_typ (f + 1) s typ1 = .ok r →
     tru_typ (f + 1) s typ2 = .ok (.ref b) →
     s.node b = some (.mono m none) →
     ((∃ n, r = .known n) ∨
      (∃ a v bo u, r = .ref a ∧ s.node a = some (.lam v bo u))) →
     is_in_typ (f + 1) s m r = .ok occ →
     union (f + 1 + 1) s typ1 typ2
       = (if occ then .error .recursiveType else .ok r, s)) ∧
    (tru_typ (f + 1) s typ2 = .ok r →
     tru_typ (f + 1) s typ1 = .ok (.ref b) →
     s.node b = some (.mono m none) →
     ((∃ n, r = .known n) ∨
      (∃ a v bo u, r = .ref a ∧ s.node a = some (.lam v bo u))) →
     is_in_typ (f + 1) s m r = .ok occ →
     union (f + 1 + 1) s typ1 typ2
       = (if occ then .error .recursiveType else .ok r, s)) := by
  constructor
  · intro h1 h2 hb hk hocc
    rcases hk with ⟨n, rfl⟩ | ⟨a, v, bo, u, rfl, ha⟩
    · cases occ <;> simp only [union, h1, h2, equal, view, hb, hocc] <;> rfl
    · cases occ <;> simp only [union, h1, h2, equal, view, hb, ha, hocc] <;> rfl
  · intro h2 h1 hb hk hocc
    rcases hk with ⟨n, rfl⟩ | ⟨a, v, bo, u, rfl, ha⟩
    · cases occ <;> simp only [union, h1, h2, equal, view, hb, hocc] <;> rfl
    · cases occ <;> simp only [union, h1, h2, equal, view, hb, ha, hocc] <;> rfl

/-- C1 counterexample: `union` of the ground type `Number` with a fresh
unbound variable succeeds and returns the other side, yet the
variable's binding slot is still `none` afterwards — `union` did not
bind it, contradicting the claim that a successful unify sets the
variable's binding slot. -/
theorem claim_C1_counterexample :
    (union 8 ⟨[.mono "t1" none], 0⟩ (.known "Number") (.ref 0)).1
      = .ok (.known "Number") ∧
    (union 8 ⟨[.mono "t1" none], 0⟩ (.known "Number") (.ref 0)).2.node 0
      = some (.mono "t1" none) :=
  ⟨rfl, rfl⟩

/-- C1 witness: the amended theorem applied to the state of C4's
occurs-check scenario with the arguments flipped (function type first,
variable second). -/
theorem claim_C1_witness :
    union 8 ⟨[.mono "t1" none, .lam (.ref 0) (.known "Number") none], 1⟩
        (.ref 1) (.ref 0)
      = (.error .recursiveType,
         ⟨[.mono "t1" none, .lam (.ref 0) (.known "Number") none], 1⟩) :=
  (claim_C1 6 ⟨[.mono "t1" none, .lam (.ref 0) (.known "Number") none], 1⟩
      (.ref 1) (.ref 0) (.ref 1) 0 "t1" true).1 rfl rfl rfl
    (Or.inr ⟨1, .ref 0, .known "Number", none, rfl, rfl⟩) rfl

/-- C9: inferring an `Identifier` whose name is absent from the type
environment raises nothing, mutates nothing, and returns the node's own
still-unbound type variable as-is. -/
theorem claim_C9 (fuel : Nat) (s : Heap) (env : TypEnvironment) (tok : Token)
    (a : Nat) (n : String)
    (h : env.getItem tok.content = none)
    (hu : s.node a = some (.mono n none)) :
    infer_type fuel s (.Identifier tok a) env = (.ok (.ref a), s) ∧
    (infer_type fuel s (.Identifier tok a) env).2.node a
      = some (.mono n none) := by
  have h1 : infer_type fuel s (.Identifier tok a) env = (.ok (.ref a), s) := by
    simp only [infer_type, h]
  exact ⟨h1, by rw [h1]; exact hu⟩

/-- C9 witness: a free identifier `y` against the empty environment. -/
theorem claim_C9_witness :
    infer_type 5 ⟨[.mono "t1" none], 1⟩ (.Identifier (variable_token "y") 0)
        .empty
      = (.ok (.ref 0), ⟨[.mono "t1" none], 1⟩) :=
  (claim_C9 5 ⟨[.mono "t1" none], 1⟩ .empty (variable_token "y") 0 "t1"
      rfl rfl).1

/-- C10: `equal` and `is_in_typ` identify type variables purely by
their name string: two distinct `MonoTyp` cells with the same name are
`equal`, and `is_in_typ` reports an occurrence for any cell whose name
matches, both directly and nested inside a `LambdaTyp`. -/
theorem claim_C10 (f : Nat) (s : Heap) (a b c : Nat) (n : String)
    (ua ub ulam : Option InferredTyp) (v : InferredTyp) :
    (a ≠ b → s.node a = some (.mono n ua) → s.node b = some (.mono n ub) →
      equal (f + 1) s (.ref a) (.ref b) = .ok true) ∧
    (s.node b = some (.mono n ub) →
      is_in_typ (f + 1) s n (.ref b) = .ok true) ∧
    (s.node c = some (.lam v (.ref b) ulam) → s.node b = some (.mono n ub) →
      is_in_typ (f + 1 + 1) s n (.ref c) = .ok true) := by
  refine ⟨fun _ ha hb => ?_, fun hb => ?_, fun hc hb => ?_⟩
  · simp only [equal, view, ha, hb, beq_self_eq_true]
  · simp only [is_in_typ, view, hb, beq_self_eq_true]
  · simp only [is_in_typ, view, hc, hb, beq_self_eq_true]

/-- C10 witness: a heap holding two distinct unbound variables both
named `t1` (as arises after `reset_mono_typ_counter`) and a
`LambdaTyp` containing the second in its body slot. -/
theorem claim_C10_witness :
    equal 4 ⟨[.mono "t1" none, .mono "t1" none,
              .lam (.known "Bool") (.ref 1) none], 1⟩ (.ref 0) (.ref 1)
      = .ok true ∧
    is_in_typ 4 ⟨[.mono "t1" none, .mono "t1" none,
                  .lam (.known "Bool") (.ref 1) none], 1⟩ "t1" (.ref 1)
      = .ok true ∧
    is_in_typ 5 ⟨[.mono "t1" none, .mono "t1" none,
                  .lam (.known "Bool") (.ref 1) none], 1⟩ "t1" (.ref 2)
      = .ok true :=
  ⟨(claim_C10 3 ⟨[.mono "t1" none, .mono "t1" none,
        .lam (.known "Bool") (.ref 1) none], 1⟩ 0 1 2 "t1" none none none
        (.known "Bool")).1 (by decide) rfl rfl,
   (claim_C10 3 ⟨[.mono "t1" none, .mono "t1" none,
        .lam (.known "Bool") (.ref 1) none], 1⟩ 0 1 2 "t1" none none none
        (.known "Bool")).2.1 rfl,
   (claim_C10 3 ⟨[.mono "t1" none, .mono "t1" none,
        .lam (.known "Bool") (.ref 1) none], 1⟩ 0 1 2 "t1" none none none
        (.known "Bool")).2.2 rfl rfl⟩

/-- C3 counterexample: identifier allocation is NOT run-scoped.  A run
over `\x. x` and an independent run over the lone identifier `y`, each
starting from the fresh module state, both allocate a variable named
`t1`; and after `reset_mono_typ_counter` a further `MonoTyp.create` in
the first run's heap allocates a second, distinct object also named
`t1`. -/
theorem claim_C3_counterexample :
    s1I.node 0 = some (.mono "t1" (some (.ref 2))) ∧
    (infer_type 32 s0Y treeY .empty).2.node 0 = some (.mono "t1" none) ∧
    (MonoTyp.create (reset_mono_typ_counter s1I)).2.node 4
      = some (.mono "t1" none) :=
  ⟨rfl, rfl, rfl⟩

/-- C3 (amended): identifiers come from the process-global
`MONO_TYP_COUNTER`: every `MonoTyp.create` increments it by one and
names the new variable `t<counter>`, so names are distinct within one
run (strictly increasing counter), but the allocator is global, not
run-scoped: `reset_mono_typ_counter` zeroes it, and independent runs
started from the fresh module state allocate colliding names (both
runs below allocate `t1`). -/
theorem claim_C3 :
    (∀ s : Heap,
      (MonoTyp.create s).2.mono_typ_counter = s.mono_typ_counter + 1 ∧
      (MonoTyp.create s).1 = .ref s.nodes.length ∧
      (MonoTyp.create s).2.nodes
        = s.nodes ++ [.mono ("t" ++ Nat.repr (s.mono_typ_counter + 1)) none] ∧
      (reset_mono_typ_counter s).mono_typ_counter = 0) ∧
    s1I.nodes.filterMap mono_name = ["t1", "t2", "t3"] ∧
    List.Nodup (s1I.nodes.filterMap mono_name) ∧
    (infer_type 32 s0Y treeY .empty).2.nodes.filterMap mono_name = ["t1"] :=
  ⟨fun _ => ⟨rfl, rfl, rfl, rfl⟩, rfl, by decide, rfl⟩

/-- C5 counterexample: re-running `infer_type` on the already-inferred
tree `\x. x` succeeds but does NOT yield the same resolved type for
the root node: after the first pass it resolves to `t3 -> t3`, after
the second pass to `t4 -> t4` (the still-unbound variable is re-bound
to a fresh one). -/
theorem claim_C5_counterexample :
    (infer_type 32 s0I treeI .empty).1 = .ok (.ref 3) ∧
    (infer_type 32 s1I treeI .empty).1 = .ok (.ref 6) ∧
    typ_deep 32 s1I (.ref 1) = .ok (.fn (.mono "t3") (.mono "t3")) ∧
    typ_deep 32 (infer_type 32 s1I treeI .empty).2 (.ref 1)
      = .ok (.fn (.mono "t4") (.mono "t4")) ∧
    PureTyp.fn (.mono "t3") (.mono "t3") ≠ PureTyp.fn (.mono "t4") (.mono "t4") :=
  ⟨rfl, rfl, rfl, rfl, by decide⟩

/-- C5 (amended): re-running `infer_type` on an already-fully-inferred
tree raises no error, and preserves resolved types only up to binding
still-unbound variables to fresh ones: on the ground-typed tree
`(\x. x) 3` both passes resolve the root to exactly `Number`, while on
`\x. x` the root's resolved type changes from `t3 -> t3` to the
renamed `t4 -> t4`. -/
theorem claim_C5 :
    ((infer_type 32 s0G treeG .empty).1 = .ok (.known "Number") ∧
     typ_deep 32 s1G (.ref 3) = .ok (.known "Number") ∧
     (infer_type 32 s1G treeG .empty).1 = .ok (.known "Number") ∧
     typ_deep 32 (infer_type 32 s1G treeG .empty).2 (.ref 3)
       = .ok (.known "Number")) ∧
    ((infer_type 32 s0I treeI .empty).1 = .ok (.ref 3) ∧
     (infer_type 32 s1I treeI .empty).1 = .ok (.ref 6) ∧
     typ_deep 32 s1I (.ref 1) = .ok (.fn (.mono "t3") (.mono "t3")) ∧
     typ_deep 32 (infer_type 32 s1I treeI .empty).2 (.ref 1)
       = .ok (.fn (.mono "t4") (.mono "t4"))) :=
  ⟨⟨rfl, rfl, rfl, rfl⟩, ⟨rfl, rfl, rfl, rfl⟩⟩

end TLC
